import Mathlib

/-!
Verification of the asynchronous transcription/minutes job pipeline in
`main.py` (FastAPI service).  The definitions below are a shallow embedding
of the job registry (`tasks_status`), the status polling endpoint
(`get_task_status`), the submission endpoint (`transcribe_audio`) and the
background executor (`process_audio_task`) in its normal (non-debug) mode,
`DEBUG_MODE = False` being the default (main.py line 37).

Stateful Python code is modelled by explicit state passing: the registry is
an association list, and the executor is modelled by the sequence of
snapshots it writes into the registry via `update_task_status`, together
with a flag recording whether the temporary audio file was deleted.
External calls (OpenAI transcription / chat completion) are modelled by a
`StageOutcome` parameter; the number of heartbeat-task iterations that run
while the blocking call is in flight is a `Nat` parameter (timing).
-/

namespace MtgMinutes

/-- Error responses raised by the HTTP layer (`HTTPException` in main.py):
404 for an unknown task id, 400 for a rejected upload, 500 for an
unexpected submission failure.  Each carries the `detail` string. -/
inductive HTTPError where
  | notFound (detail : String)
  | badRequest (detail : String)
  | serverError (detail : String)
deriving DecidableEq, Repr

/-- One job snapshot as stored in `tasks_status` (a Python dict).  Dict keys
that a given write omits are modelled as `none` / `false`:
`step` (1 = preparation, 2 = transcription, 3 = minutes generation,
4 = done), `progress` (0–100 within the current step), `message`,
`completed`, `result` (a JSON object, modelled as an association list of
its fields) and the `error` flag of the failure snapshot. -/
structure Status where
  step : Option Nat := none
  progress : Option Nat := none
  message : String
  completed : Bool
  result : Option (List (String × String)) := none
  error : Bool := false
deriving DecidableEq, Repr

/-- The process-wide job store `tasks_status = {}` (main.py line 58),
modelled as an association list from task id to latest snapshot. -/
def Registry := List (String × Status)

/-- Dictionary lookup `tasks_status.get(task_id)`. -/
def Registry.get? (reg : Registry) (task_id : String) : Option Status :=
  (List.find? (fun p => p.1 == task_id) reg).map (fun p => p.2)

/-- `update_task_status` (main.py lines 1067–1070): dict assignment
`tasks_status[task_id] = status`, modelled by prepending (lookup returns
the most recent binding). -/
def update_task_status (task_id : String) (status : Status) (reg : Registry) : Registry :=
  (task_id, status) :: reg

/-- `get_task_status` (main.py lines 1049–1065): 404 when the id is absent,
otherwise the stored snapshot.  (The source's "completed" branch returns a
copy of the same snapshot and deletes nothing, so both branches return the
stored value.) -/
def get_task_status (reg : Registry) (task_id : String) : Except HTTPError Status :=
  match Registry.get? reg task_id with
  | none => Except.error (HTTPError.notFound "タスクが見つかりません")
  | some status_data => Except.ok status_data

/-- Outcome of one blocking external call run on the worker thread:
`ok text` for a normal return, `fail message` for a raised exception
(`str(e)` of the exception). -/
inductive StageOutcome where
  | ok (text : String)
  | fail (message : String)
deriving DecidableEq, Repr

/-- Whether the outcome is a normal return. -/
def StageOutcome.isOk : StageOutcome → Bool
  | .ok _ => true
  | .fail _ => false

/-- The nine snapshots `process_audio_task` writes before starting the
transcription call (main.py lines 1078–1214): six step-1 preparation
writes and three step-2 writes.  The step-1 progress-25 message embeds the
detected MIME type and the file size in KB (the source's one-decimal
fixed-point formatting is modelled by `Nat` division). -/
def preparation_writes (model file_mime : String) (file_size : Nat) : List Status :=
  [ { step := some 1, progress := some 5,
      message := "音声ファイルを準備中...", completed := false },
    { step := some 1, progress := some 15,
      message := "音声処理を初期化中...", completed := false },
    { step := some 1, progress := some 25,
      message := "ファイル情報: " ++ file_mime ++ ", " ++ toString (file_size / 1024) ++ " KB",
      completed := false },
    { step := some 1, progress := some 40,
      message := "音声プロセッサを準備中...", completed := false },
    { step := some 1, progress := some 60,
      message := "音声ファイルを分析中...", completed := false },
    { step := some 1, progress := some 80,
      message := "音声ファイル処理完了", completed := false },
    { step := some 2, progress := some 5,
      message := "音声認識モデル（" ++ model ++ "）を準備中...", completed := false },
    { step := some 2, progress := some 10,
      message := "音声認識を開始...", completed := false },
    { step := some 2, progress := some 15,
      message := model ++ "を使用して音声を認識中...", completed := false } ]

/-- The six snapshots of `update_progress_during_api_call` (main.py lines
1296–1315), the heartbeat task racing the transcription call. -/
def whisper_heartbeat_writes : List Status :=
  [ { step := some 2, progress := some 20, message := "音声データを送信中...", completed := false },
    { step := some 2, progress := some 30, message := "音声を解析中...", completed := false },
    { step := some 2, progress := some 45, message := "音声認識処理中...", completed := false },
    { step := some 2, progress := some 60, message := "テキスト変換中...", completed := false },
    { step := some 2, progress := some 75, message := "認識結果を整形中...", completed := false },
    { step := some 2, progress := some 90, message := "最終処理実行中...", completed := false } ]

/-- The snapshot written right after the transcription call returns
(main.py lines 1325–1331), before the heartbeat task is cancelled. -/
def transcription_api_done_status : Status :=
  { step := some 2, progress := some 49, message := "音声認識完了、結果を処理中...", completed := false }

/-- The step-2 progress-95 snapshot (main.py lines 1346–1352); its message
embeds the character count of the recognized text. -/
def recognition_done_status (raw_text : String) : Status :=
  { step := some 2, progress := some 95,
    message := "音声認識が完了しました (" ++ toString raw_text.length ++ "文字)",
    completed := false }

/-- The step-2 progress-100 snapshot (main.py lines 1356–1362). -/
def conversion_done_status : Status :=
  { step := some 2, progress := some 100, message := "音声からテキストへの変換完了", completed := false }

/-- The four step-3 snapshots written before starting the minutes
generation call (main.py lines 1366–1434). -/
def summarization_prep_writes : List Status :=
  [ { step := some 3, progress := some 5, message := "議事録生成の準備中...", completed := false },
    { step := some 3, progress := some 15, message := "議事録フォーマットの準備中...", completed := false },
    { step := some 3, progress := some 20, message := "議事録の生成中...", completed := false },
    { step := some 3, progress := some 75, message := "GPT-4を使用して議事録を作成中...", completed := false } ]

/-- The eight snapshots of `update_gpt_progress` (main.py lines
1520–1541), the heartbeat task racing the minutes-generation call. -/
def gpt_heartbeat_writes : List Status :=
  [ { step := some 3, progress := some 25, message := "議事録構造を作成中...", completed := false },
    { step := some 3, progress := some 35, message := "会議内容を分析中...", completed := false },
    { step := some 3, progress := some 45, message := "主要なトピックを抽出中...", completed := false },
    { step := some 3, progress := some 55, message := "参加者情報を整理中...", completed := false },
    { step := some 3, progress := some 65, message := "決定事項を抽出中...", completed := false },
    { step := some 3, progress := some 75, message := "議事録を整形中...", completed := false },
    { step := some 3, progress := some 85, message := "表現を調整中...", completed := false },
    { step := some 3, progress := some 95, message := "最終調整中...", completed := false } ]

/-- The success terminal snapshot (main.py lines 1563–1573): step 4,
progress 100, `completed = True`, and the result object
`{"raw_text": ..., "minutes": ...}`. -/
def completed_status (raw_text formatted_minutes : String) : Status :=
  { step := some 4, progress := some 100, message := "処理が完了しました",
    completed := true,
    result := some [("raw_text", raw_text), ("minutes", formatted_minutes)] }

/-- The failure terminal snapshot written by the outer exception handler
(main.py lines 1582–1589): `{"error": True, "message": ..., "completed":
True}` — no step, no progress, no result. -/
def error_status (e : String) : Status :=
  { message := "エラーが発生しました: " ++ e, completed := true, error := true }

/-- The sequence of registry writes of `process_audio_task` (main.py lines
1073–1589) in normal mode, paired with whether the temporary audio file
was deleted (`os.unlink`, line 1577 — reached only on the success path).
`whisper_ticks` (resp. `gpt_ticks`) is the number of heartbeat iterations
that complete before the transcription (resp. minutes-generation) call
resolves; the heartbeat is cancelled when the call resolves, so at most
the full six (resp. eight) ticks can be written.  On a call failure the
exception propagates to the outer handler, which writes the failure
terminal snapshot; the minutes stage is never entered after a
transcription failure. -/
def process_audio_task (meeting_summary key_terms model file_mime : String)
    (file_size : Nat) (whisper_ticks : Nat) (whisper : StageOutcome)
    (gpt_ticks : Nat) (gpt : StageOutcome) : List Status × Bool :=
  let common := preparation_writes model file_mime file_size ++
    whisper_heartbeat_writes.take whisper_ticks
  match whisper with
  | .fail e => (common ++ [error_status e], false)
  | .ok raw_text =>
    let common2 := common ++
      [transcription_api_done_status, recognition_done_status raw_text, conversion_done_status] ++
      summarization_prep_writes ++ gpt_heartbeat_writes.take gpt_ticks
    match gpt with
    | .fail e => (common2 ++ [error_status e], false)
    | .ok formatted_minutes => (common2 ++ [completed_status raw_text formatted_minutes], true)

/-- Allowed upload extensions (main.py line 1603). -/
def allowed_extensions : List String :=
  [".mp3", ".mp4", ".mpeg", ".mpga", ".m4a", ".wav", ".webm"]

/-- The initial snapshot written by the submission endpoint (main.py lines
1624–1630): step 1, progress 0, not completed — the "Queued" state. -/
def initial_status : Status :=
  { step := some 1, progress := some 0, message := "処理を開始しています...", completed := false }

/-- Result of one call to the submission endpoint: the HTTP response (task
id on success), the registry after the call, and whether the background
pipeline task was dispatched via `background_tasks.add_task`. -/
structure SubmitResult where
  response : Except HTTPError String
  registry : Registry
  dispatched : Bool

/-- `transcribe_audio` (main.py lines 1591–1699).  `task_id` stands for the
generated `uuid.uuid4()`; `file_ext` is the extension of the uploaded
filename ("" when absent, replaced by ".unknown", line 1612);
`file_read_ok` models whether reading the upload and saving it to the
temporary file succeeds, and `file_error` is `str` of the exception when it
does not.  Order of effects, as in the source: the extension check (400)
happens before anything is stored; the initial snapshot is stored (line
1630) before the temporary file is created; a failure of the file handling
is wrapped twice (lines 1684, 1689) and answered with a 500 (line 1699)
without removing the stored snapshot and without dispatching the
background task; on success the background task is dispatched and the task
id returned, before the pipeline has run. -/
def transcribe_audio (reg : Registry) (task_id : String) (file_ext : String)
    (file_read_ok : Bool) (file_error : String) : SubmitResult :=
  let ext := if file_ext = "" then ".unknown" else file_ext
  if ext ∈ allowed_extensions then
    let reg1 := update_task_status task_id initial_status reg
    if file_read_ok then
      { response := Except.ok task_id, registry := reg1, dispatched := true }
    else
      { response := Except.error (HTTPError.serverError
          ("予期せぬエラーが発生しました: 一時ファイルエラー: ファイル処理エラー: " ++ file_error)),
        registry := reg1, dispatched := false }
  else
    { response := Except.error (HTTPError.badRequest
        ("サポートされていないファイル形式です。対応形式: " ++ String.intercalate ", " allowed_extensions)),
      registry := reg, dispatched := false }

/-- The step numbers carried by a write sequence (writes lacking a step —
the failure snapshot — contribute nothing). -/
def stepsOf (writes : List Status) : List Nat :=
  writes.filterMap (fun s => s.step)

/-- The progress values carried by a write sequence. -/
def progress_values (writes : List Status) : List Nat :=
  writes.filterMap (fun s => s.progress)

/-- Boolean test that a list of numbers is non-decreasing from each element
to the next. -/
def nondecreasing : List Nat → Bool
  | [] => true
  | [_] => true
  | a :: b :: t => decide (a ≤ b) && nondecreasing (b :: t)

lemma registry_get_update (reg : Registry) (task_id : String) (s : Status) :
    Registry.get? (update_task_status task_id s reg) task_id = some s := by
  simp [Registry.get?, update_task_status, List.find?]

/-- C3: for every id, the polling endpoint either fails with `NotFound`
(exactly when the id is absent from the registry) or returns the stored
snapshot; no other failure is possible, and in particular a stage failure
recorded in the registry is returned as an ordinary `ok` snapshot whose
`error` flag is data. -/
theorem get_task_status_notfound_or_snapshot :
    (∀ (reg : Registry) (task_id : String),
      (Registry.get? reg task_id = none ∧
        get_task_status reg task_id =
          Except.error (HTTPError.notFound "タスクが見つかりません")) ∨
      (∃ s, Registry.get? reg task_id = some s ∧
        get_task_status reg task_id = Except.ok s)) ∧
    (∀ (reg : Registry) (task_id e : String),
      get_task_status (update_task_status task_id (error_status e) reg) task_id =
        Except.ok (error_status e)) := by
  constructor
  · intro reg task_id
    cases h : Registry.get? reg task_id with
    | none => exact Or.inl ⟨rfl, by simp [get_task_status, h]⟩
    | some s => exact Or.inr ⟨s, rfl, by simp [get_task_status, h]⟩
  · intro reg task_id e
    simp [get_task_status, registry_get_update]

/-- C4: a submission with an allowed extension and successful file handling
returns the fresh id, dispatches the pipeline, and has stored the Queued
snapshot (step 1, progress 0, not completed), so an immediate poll of the
returned id yields exactly that snapshot. -/
theorem submission_creates_queued_job (reg : Registry)
    (task_id file_ext file_error : String) (h : file_ext ∈ allowed_extensions) :
    (transcribe_audio reg task_id file_ext true file_error).response = Except.ok task_id ∧
    (transcribe_audio reg task_id file_ext true file_error).dispatched = true ∧
    get_task_status (transcribe_audio reg task_id file_ext true file_error).registry task_id =
      Except.ok initial_status ∧
    initial_status.step = some 1 ∧ initial_status.progress = some 0 ∧
    initial_status.completed = false := by
  have hne : file_ext ≠ "" := by
    rintro rfl
    revert h
    decide
  simp only [transcribe_audio, if_neg hne, if_pos h]
  refine ⟨rfl, rfl, ?_, rfl, rfl, rfl⟩
  simp [get_task_status, registry_get_update]

/-- Witness for C4 at a concrete submission. -/
theorem submission_creates_queued_job_witness :
    (transcribe_audio [] "job-1" ".mp3" true "").response = Except.ok "job-1" ∧
    (transcribe_audio [] "job-1" ".mp3" true "").dispatched = true ∧
    get_task_status (transcribe_audio [] "job-1" ".mp3" true "").registry "job-1" =
      Except.ok initial_status ∧
    initial_status.step = some 1 ∧ initial_status.progress = some 0 ∧
    initial_status.completed = false :=
  submission_creates_queued_job [] "job-1" ".mp3" "" (by decide)

/-- C10: when the file handling fails after validation passed, the
submission answers with a 500 error and dispatches no pipeline task, yet
the Queued snapshot written beforehand stays in the registry, pollable as
a never-completing job. -/
theorem submission_not_atomic_on_failure (reg : Registry)
    (task_id file_ext file_error : String) (h : file_ext ∈ allowed_extensions) :
    (transcribe_audio reg task_id file_ext false file_error).response =
      Except.error (HTTPError.serverError
        ("予期せぬエラーが発生しました: 一時ファイルエラー: ファイル処理エラー: " ++ file_error)) ∧
    (transcribe_audio reg task_id file_ext false file_error).dispatched = false ∧
    get_task_status (transcribe_audio reg task_id file_ext false file_error).registry task_id =
      Except.ok initial_status ∧
    initial_status.completed = false ∧ initial_status.progress = some 0 := by
  have hne : file_ext ≠ "" := by
    rintro rfl
    revert h
    decide
  simp only [transcribe_audio, if_neg hne, if_pos h]
  refine ⟨rfl, rfl, ?_, rfl, rfl⟩
  simp [get_task_status, registry_get_update]

lemma all_take {P : Status → Bool} {l : List Status} (h : l.all P = true) (n : Nat) :
    (l.take n).all P = true := by
  rw [List.all_eq_true] at h ⊢
  exact fun s hs => h s (List.mem_of_mem_take hs)

lemma trace_all (ms kt model mime : String) (sz wt : Nat) (w : StageOutcome)
    (gt : Nat) (g : StageOutcome) (P : Status → Bool)
    (hprep : (preparation_writes model mime sz).all P = true)
    (hwhb : whisper_heartbeat_writes.all P = true)
    (h49 : P transcription_api_done_status = true)
    (h95 : ∀ raw, P (recognition_done_status raw) = true)
    (h100 : P conversion_done_status = true)
    (hsprep : summarization_prep_writes.all P = true)
    (hghb : gpt_heartbeat_writes.all P = true)
    (hdone : ∀ raw mins, P (completed_status raw mins) = true)
    (herr : ∀ e, P (error_status e) = true) :
    ((process_audio_task ms kt model mime sz wt w gt g).1.all P) = true := by
  rcases w with raw | e
  · rcases g with mins | e
    · simp [process_audio_task, List.all_append, hprep, all_take hwhb, all_take hghb,
        h49, h95, h100, hsprep, hdone]
    · simp [process_audio_task, List.all_append, hprep, all_take hwhb, all_take hghb,
        h49, h95, h100, hsprep, herr]
  · simp [process_audio_task, List.all_append, hprep, all_take hwhb, herr]

lemma trace_all_whisper_fail (ms kt model mime : String) (sz wt : Nat) (e : String)
    (gt : Nat) (g : StageOutcome) (P : Status → Bool)
    (hprep : (preparation_writes model mime sz).all P = true)
    (hwhb : whisper_heartbeat_writes.all P = true)
    (herr : P (error_status e) = true) :
    ((process_audio_task ms kt model mime sz wt (.fail e) gt g).1.all P) = true := by
  simp [process_audio_task, List.all_append, hprep, all_take hwhb, herr]

/-- C2: in every possible run, every snapshot written with `completed =
true` carries exactly one of the result payload and the error flag: the
success terminal write has a result and no error, the failure terminal
write has the error and no result, and no other terminal write exists. -/
theorem terminal_write_exactly_one_of_result_error
    (ms kt model mime : String) (sz wt : Nat) (w : StageOutcome)
    (gt : Nat) (g : StageOutcome) :
    ((process_audio_task ms kt model mime sz wt w gt g).1.all
      (fun s => !s.completed || (s.result.isSome != s.error))) = true :=
  trace_all ms kt model mime sz wt w gt g _
    rfl rfl rfl (fun _ => rfl) rfl rfl rfl (fun _ _ => rfl) (fun _ => rfl)

/-- C8: whatever the timing and the later-stage stubs, a run whose
transcription call fails with message `e` ends with the failure terminal
snapshot, which is completed, flagged as error, and whose message contains
`e`; and no write of that run ever carries step 3 (the minutes stage). -/
theorem transcription_failure_terminates_failed
    (ms kt model mime : String) (sz wt : Nat) (e : String)
    (gt : Nat) (g : StageOutcome) :
    (∃ p, (process_audio_task ms kt model mime sz wt (.fail e) gt g).1
        = p ++ [error_status e]) ∧
    (error_status e).completed = true ∧
    (error_status e).error = true ∧
    (∃ q, (error_status e).message = q ++ e) ∧
    ((process_audio_task ms kt model mime sz wt (.fail e) gt g).1.all
      (fun s => s.step != some 3)) = true := by
  refine ⟨⟨preparation_writes model mime sz ++ whisper_heartbeat_writes.take wt, rfl⟩,
    rfl, rfl, ⟨"エラーが発生しました: ", rfl⟩, ?_⟩
  exact trace_all_whisper_fail ms kt model mime sz wt e gt g _ rfl rfl rfl

/-- C9 counterexample: in a concrete successful run the terminal result
payload has no field named `transcript`; its fields are `raw_text` and
`minutes`. -/
theorem result_has_no_transcript_field_counterexample :
    (process_audio_task "" "" "whisper-1" "audio/mpeg" 1024 0 (.ok "X") 0 (.ok "Y")).1.getLast?
      = some (completed_status "X" "Y") ∧
    (completed_status "X" "Y").result = some [("raw_text", "X"), ("minutes", "Y")] ∧
    List.lookup "transcript" [("raw_text", "X"), ("minutes", "Y")] = (none : Option String) ∧
    List.lookup "raw_text" [("raw_text", "X"), ("minutes", "Y")] = some "X" := by
  refine ⟨?_, rfl, rfl, rfl⟩
  rfl

/-- C9 amended: every successful run ends with the terminal snapshot whose
result payload has exactly the two fields `raw_text` (the transcription
text) and `minutes` (the formatted minutes); and in every run, a write
carries a result exactly when it is the step-4 (Completed) terminal
write. -/
theorem result_payload_raw_text_minutes :
    (∀ (ms kt model mime : String) (sz wt gt : Nat) (raw mins : String),
      (∃ p, (process_audio_task ms kt model mime sz wt (.ok raw) gt (.ok mins)).1
          = p ++ [completed_status raw mins]) ∧
      (completed_status raw mins).result = some [("raw_text", raw), ("minutes", mins)]) ∧
    (∀ (ms kt model mime : String) (sz wt : Nat) (w : StageOutcome)
      (gt : Nat) (g : StageOutcome),
      ((process_audio_task ms kt model mime sz wt w gt g).1.all
        (fun s => s.result.isSome == (s.step == some 4))) = true) := by
  constructor
  · intro ms kt model mime sz wt gt raw mins
    exact ⟨⟨preparation_writes model mime sz ++ whisper_heartbeat_writes.take wt ++
      [transcription_api_done_status, recognition_done_status raw, conversion_done_status] ++
      summarization_prep_writes ++ gpt_heartbeat_writes.take gt, rfl⟩, rfl⟩
  · intro ms kt model mime sz wt w gt g
    exact trace_all ms kt model mime sz wt w gt g _
      rfl rfl rfl (fun _ => rfl) rfl rfl rfl (fun _ _ => rfl) (fun _ => rfl)

/-- Witness for C10 at a concrete failing submission. -/
theorem submission_not_atomic_on_failure_witness :
    (transcribe_audio [] "job-2" ".wav" false "disk full").response =
      Except.error (HTTPError.serverError
        ("予期せぬエラーが発生しました: 一時ファイルエラー: ファイル処理エラー: " ++ "disk full")) ∧
    (transcribe_audio [] "job-2" ".wav" false "disk full").dispatched = false ∧
    get_task_status (transcribe_audio [] "job-2" ".wav" false "disk full").registry "job-2" =
      Except.ok initial_status ∧
    initial_status.completed = false ∧ initial_status.progress = some 0 :=
  submission_not_atomic_on_failure [] "job-2" ".wav" "disk full" (by decide)

/-- C5: the temporary audio file is deleted (`os.unlink`, main.py line
1577) only on the success path; both failure paths end in the failure
terminal snapshot with the file still on disk — the input resource is
leaked whenever the job terminates in Failed. -/
theorem temp_file_deleted_only_on_success :
    (∀ (ms kt model mime : String) (sz wt : Nat) (e : String) (gt : Nat) (g : StageOutcome),
      (process_audio_task ms kt model mime sz wt (.fail e) gt g).2 = false) ∧
    (∀ (ms kt model mime : String) (sz wt : Nat) (raw : String) (gt : Nat) (e : String),
      (process_audio_task ms kt model mime sz wt (.ok raw) gt (.fail e)).2 = false) ∧
    (∀ (ms kt model mime : String) (sz wt : Nat) (raw : String) (gt : Nat) (mins : String),
      (process_audio_task ms kt model mime sz wt (.ok raw) gt (.ok mins)).2 = true) :=
  ⟨fun _ _ _ _ _ _ _ _ _ => rfl, fun _ _ _ _ _ _ _ _ _ => rfl, fun _ _ _ _ _ _ _ _ _ => rfl⟩

/-- The keyword arguments of the Whisper transcription call
(main.py lines 1280–1285). -/
def whisper_call_kwargs : List String := ["model", "file", "language", "prompt"]

/-- The keyword arguments of the transcription call for non-Whisper models
(main.py lines 1288–1293). -/
def gpt4_transcribe_call_kwargs : List String := ["model", "file", "language", "prompt"]

/-- The keyword arguments of the chat-completion (minutes generation) call
(main.py lines 1511–1517). -/
def gpt_call_kwargs : List String := ["model", "messages"]

/-- C6 counterexample: none of the three external call sites passes any
deadline or timeout argument — the calls are not invoked with a
caller-supplied deadline. -/
theorem external_calls_have_no_deadline_counterexample :
    whisper_call_kwargs.contains "timeout" = false ∧
    whisper_call_kwargs.contains "deadline" = false ∧
    gpt4_transcribe_call_kwargs.contains "timeout" = false ∧
    gpt4_transcribe_call_kwargs.contains "deadline" = false ∧
    gpt_call_kwargs.contains "timeout" = false ∧
    gpt_call_kwargs.contains "deadline" = false := by decide

/-- C6 amended: the external calls carry no deadline argument at all; what
does hold is that any exception raised by either call (which is how a
provider-side timeout would surface) makes the job terminate in the
failure snapshot. -/
theorem no_deadline_and_exception_means_failed :
    (whisper_call_kwargs.contains "timeout" = false ∧
     whisper_call_kwargs.contains "deadline" = false ∧
     gpt4_transcribe_call_kwargs.contains "timeout" = false ∧
     gpt4_transcribe_call_kwargs.contains "deadline" = false ∧
     gpt_call_kwargs.contains "timeout" = false ∧
     gpt_call_kwargs.contains "deadline" = false) ∧
    (∀ (ms kt model mime : String) (sz wt : Nat) (e : String) (gt : Nat) (g : StageOutcome),
      ∃ p, (process_audio_task ms kt model mime sz wt (.fail e) gt g).1
          = p ++ [error_status e]) ∧
    (∀ (ms kt model mime : String) (sz wt : Nat) (raw : String) (gt : Nat) (e : String),
      ∃ p, (process_audio_task ms kt model mime sz wt (.ok raw) gt (.fail e)).1
          = p ++ [error_status e]) := by
  refine ⟨by decide, ?_, ?_⟩
  · intro ms kt model mime sz wt e gt g
    exact ⟨preparation_writes model mime sz ++ whisper_heartbeat_writes.take wt, rfl⟩
  · intro ms kt model mime sz wt raw gt e
    exact ⟨preparation_writes model mime sz ++ whisper_heartbeat_writes.take wt ++
      [transcription_api_done_status, recognition_done_status raw, conversion_done_status] ++
      summarization_prep_writes ++ gpt_heartbeat_writes.take gt, rfl⟩

/-- One executor-side atomic action around an external call, for stating
in which order the executor writes, cancels the heartbeat and suspends. -/
inductive ExecAction where
  | registry_write (s : Status)
  | store_result
  | cancel_heartbeat
  | await_point
  | reraise
deriving DecidableEq, Repr

/-- main.py lines 1322–1353, transcription call succeeded: executor
actions from the call resolving up to and including the executor's next
suspension point (`await asyncio.sleep(0.3)`).  The progress-49 status is
written and the result stored before the heartbeat task is cancelled. -/
def whisper_success_actions (raw_text : String) : List ExecAction :=
  [ ExecAction.registry_write transcription_api_done_status,
    ExecAction.store_result,
    ExecAction.cancel_heartbeat,
    ExecAction.registry_write (recognition_done_status raw_text),
    ExecAction.await_point ]

/-- main.py lines 1340–1344: transcription call raised — the heartbeat is
cancelled first, then the exception re-raised. -/
def whisper_failure_actions : List ExecAction :=
  [ExecAction.cancel_heartbeat, ExecAction.reraise]

/-- main.py lines 1546–1573: minutes-generation call succeeded — the
result is stored, the heartbeat cancelled, then the terminal snapshot
written; no suspension point before the cancellation. -/
def gpt_success_actions (raw_text formatted_minutes : String) : List ExecAction :=
  [ ExecAction.store_result, ExecAction.cancel_heartbeat,
    ExecAction.registry_write (completed_status raw_text formatted_minutes) ]

/-- main.py lines 1555–1559: minutes-generation call raised. -/
def gpt_failure_actions : List ExecAction :=
  [ExecAction.cancel_heartbeat, ExecAction.reraise]

/-- The registry writes an action list performs strictly before the
heartbeat cancellation. -/
def writes_before_cancel (l : List ExecAction) : List ExecAction :=
  (l.takeWhile (fun a => a != ExecAction.cancel_heartbeat)).filter
    (fun a => match a with | ExecAction.registry_write _ => true | _ => false)

/-- C7 counterexample: on the transcription success path the cancellation
is not the first thing the executor does when the call resolves — the
progress-49 registry write precedes it. -/
theorem heartbeat_cancel_not_first_counterexample :
    writes_before_cancel (whisper_success_actions "X")
      = [ExecAction.registry_write transcription_api_done_status] ∧
    (whisper_success_actions "X").head?
      = some (ExecAction.registry_write transcription_api_done_status) :=
  ⟨rfl, rfl⟩

/-- C7 amended: on every path the heartbeat task is cancelled before the
executor's next suspension point, and on three of the four paths before
any registry write; but on the transcription success path the executor
first writes the progress-49 status (and stores the result) and only then
cancels the heartbeat. -/
theorem heartbeat_cancelled_before_next_suspension (raw mins : String) :
    writes_before_cancel (whisper_success_actions raw)
      = [ExecAction.registry_write transcription_api_done_status] ∧
    writes_before_cancel whisper_failure_actions = [] ∧
    writes_before_cancel (gpt_success_actions raw mins) = [] ∧
    writes_before_cancel gpt_failure_actions = [] ∧
    ((whisper_success_actions raw).takeWhile
        (fun a => a != ExecAction.cancel_heartbeat)).all
      (fun a => a != ExecAction.await_point) = true ∧
    (whisper_failure_actions.takeWhile
        (fun a => a != ExecAction.cancel_heartbeat)).all
      (fun a => a != ExecAction.await_point) = true ∧
    ((gpt_success_actions raw mins).takeWhile
        (fun a => a != ExecAction.cancel_heartbeat)).all
      (fun a => a != ExecAction.await_point) = true ∧
    (gpt_failure_actions.takeWhile
        (fun a => a != ExecAction.cancel_heartbeat)).all
      (fun a => a != ExecAction.await_point) = true ∧
    (whisper_success_actions raw).any
      (fun a => a == ExecAction.cancel_heartbeat) = true ∧
    whisper_failure_actions.any
      (fun a => a == ExecAction.cancel_heartbeat) = true ∧
    (gpt_success_actions raw mins).any
      (fun a => a == ExecAction.cancel_heartbeat) = true ∧
    gpt_failure_actions.any
      (fun a => a == ExecAction.cancel_heartbeat) = true :=
  ⟨rfl, rfl, rfl, rfl, rfl, rfl, rfl, rfl, rfl, rfl, rfl, rfl⟩

lemma nondecreasing_iff_chain : ∀ l : List Nat,
    nondecreasing l = true ↔ List.Chain' (fun a b => a ≤ b) l
  | [] => by simp [nondecreasing]
  | [a] => by simp [nondecreasing]
  | a :: b :: t => by
    simp only [nondecreasing, List.chain'_cons, Bool.and_eq_true, decide_eq_true_eq]
    rw [nondecreasing_iff_chain (b :: t)]

lemma pairwise_le_of_all_eq {l : List Nat} {c : Nat} (h : ∀ x ∈ l, x = c) :
    l.Pairwise (fun a b => a ≤ b) := by
  induction l with
  | nil => exact List.Pairwise.nil
  | cons a t ih =>
    refine List.Pairwise.cons (fun b hb => ?_) (ih (fun x hx => h x (List.mem_cons_of_mem a hx)))
    rw [h a (List.mem_cons_self a t), h b (List.mem_cons_of_mem a hb)]

lemma pairwise_le_append {A B : List Nat} (c : Nat)
    (hA : ∀ a ∈ A, a ≤ c) (hB : ∀ b ∈ B, c ≤ b)
    (pA : A.Pairwise (fun a b => a ≤ b)) (pB : B.Pairwise (fun a b => a ≤ b)) :
    (A ++ B).Pairwise (fun a b => a ≤ b) := by
  rw [List.pairwise_append]
  exact ⟨pA, pB, fun a ha b hb => le_trans (hA a ha) (hB b hb)⟩

lemma step_mem_whb_take {k x : Nat} (hx : x ∈ stepsOf (whisper_heartbeat_writes.take k)) :
    x = 2 := by
  simp only [stepsOf] at hx
  rcases List.mem_filterMap.mp hx with ⟨s, hs, hstep⟩
  have hs2 : s ∈ whisper_heartbeat_writes := List.mem_of_mem_take hs
  fin_cases hs2 <;> simp_all [whisper_heartbeat_writes]

lemma step_mem_ghb_take {k x : Nat} (hx : x ∈ stepsOf (gpt_heartbeat_writes.take k)) :
    x = 3 := by
  simp only [stepsOf] at hx
  rcases List.mem_filterMap.mp hx with ⟨s, hs, hstep⟩
  have hs2 : s ∈ gpt_heartbeat_writes := List.mem_of_mem_take hs
  fin_cases hs2 <;> simp_all [gpt_heartbeat_writes]

lemma steps_prep (model mime : String) (sz : Nat) :
    stepsOf (preparation_writes model mime sz) = [1, 1, 1, 1, 1, 1, 2, 2, 2] := rfl

lemma steps_mid (raw : String) :
    stepsOf [transcription_api_done_status, recognition_done_status raw,
      conversion_done_status] = [2, 2, 2] := rfl

lemma steps_sprep : stepsOf summarization_prep_writes = [3, 3, 3, 3] := rfl

lemma steps_completed (raw mins : String) : stepsOf [completed_status raw mins] = [4] := rfl

lemma steps_error (e : String) : stepsOf [error_status e] = [] := rfl

/-- C1 counterexample: in a concrete run the per-write progress sequence
over the non-terminal writes is not non-decreasing — progress resets at
the step-1/step-2 boundary (80 then 5) and drops inside step 3 when the
heartbeat write 25 follows the executor's 75. -/
theorem progress_not_monotone_counterexample :
    nondecreasing (progress_values
      ((process_audio_task "" "" "whisper-1" "audio/mpeg" 1024 0
        (.ok "X") 1 (.ok "Y")).1.dropLast)) = false := by decide

/-- C1 amended: the raw `progress` value is per-step and resets at step
boundaries, so it is not globally monotone; what is monotone across the
whole pipeline, in every run (any timing, any stage outcomes), is the
step number: the sequence of `step` fields over all registry writes is
non-decreasing. -/
theorem step_sequence_monotone (ms kt model mime : String) (sz wt : Nat)
    (w : StageOutcome) (gt : Nat) (g : StageOutcome) :
    nondecreasing (stepsOf ((process_audio_task ms kt model mime sz wt w gt g).1)) = true := by
  rw [nondecreasing_iff_chain]
  rcases w with raw | e
  · rcases g with mins | e
    · have hshape : stepsOf ((process_audio_task ms kt model mime sz wt
          (.ok raw) gt (.ok mins)).1)
          = stepsOf (preparation_writes model mime sz) ++
            (stepsOf (whisper_heartbeat_writes.take wt) ++
              (stepsOf [transcription_api_done_status, recognition_done_status raw,
                  conversion_done_status] ++
                (stepsOf summarization_prep_writes ++
                  (stepsOf (gpt_heartbeat_writes.take gt) ++
                    stepsOf [completed_status raw mins])))) := by
        simp only [process_audio_task, List.append_assoc, stepsOf, List.filterMap_append]
      rw [hshape, steps_prep, steps_mid, steps_sprep, steps_completed]
      refine List.Pairwise.chain' ?_
      refine pairwise_le_append 2 (by decide) ?_ (by decide) ?_
      · intro b hb
        rcases List.mem_append.mp hb with h | h
        · exact le_of_eq (step_mem_whb_take h).symm
        rcases List.mem_append.mp h with h | h
        · simp at h
          omega
        rcases List.mem_append.mp h with h | h
        · simp at h
          omega
        rcases List.mem_append.mp h with h | h
        · have := step_mem_ghb_take h
          omega
        · simp at h
          omega
      refine pairwise_le_append 2
        (fun a ha => le_of_eq (step_mem_whb_take ha))
        ?_ (pairwise_le_of_all_eq fun x hx => step_mem_whb_take hx) ?_
      · intro b hb
        rcases List.mem_append.mp hb with h | h
        · simp at h
          omega
        rcases List.mem_append.mp h with h | h
        · simp at h
          omega
        rcases List.mem_append.mp h with h | h
        · have := step_mem_ghb_take h
          omega
        · simp at h
          omega
      refine pairwise_le_append 2 (by decide) ?_ (by decide) ?_
      · intro b hb
        rcases List.mem_append.mp hb with h | h
        · simp at h
          omega
        rcases List.mem_append.mp h with h | h
        · have := step_mem_ghb_take h
          omega
        · simp at h
          omega
      refine pairwise_le_append 3 (by decide) ?_ (by decide) ?_
      · intro b hb
        rcases List.mem_append.mp hb with h | h
        · have := step_mem_ghb_take h
          omega
        · simp at h
          omega
      refine pairwise_le_append 3
        (fun a ha => le_of_eq (step_mem_ghb_take ha)) ?_
        (pairwise_le_of_all_eq fun x hx => step_mem_ghb_take hx) (by decide)
      · intro b hb
        simp at hb
        omega
    · have hshape : stepsOf ((process_audio_task ms kt model mime sz wt
          (.ok raw) gt (.fail e)).1)
          = stepsOf (preparation_writes model mime sz) ++
            (stepsOf (whisper_heartbeat_writes.take wt) ++
              (stepsOf [transcription_api_done_status, recognition_done_status raw,
                  conversion_done_status] ++
                (stepsOf summarization_prep_writes ++
                  (stepsOf (gpt_heartbeat_writes.take gt) ++
                    stepsOf [error_status e])))) := by
        simp only [process_audio_task, List.append_assoc, stepsOf, List.filterMap_append]
      rw [hshape, steps_prep, steps_mid, steps_sprep, steps_error, List.append_nil]
      refine List.Pairwise.chain' ?_
      refine pairwise_le_append 2 (by decide) ?_ (by decide) ?_
      · intro b hb
        rcases List.mem_append.mp hb with h | h
        · exact le_of_eq (step_mem_whb_take h).symm
        rcases List.mem_append.mp h with h | h
        · simp at h
          omega
        rcases List.mem_append.mp h with h | h
        · simp at h
          omega
        · have := step_mem_ghb_take h
          omega
      refine pairwise_le_append 2
        (fun a ha => le_of_eq (step_mem_whb_take ha))
        ?_ (pairwise_le_of_all_eq fun x hx => step_mem_whb_take hx) ?_
      · intro b hb
        rcases List.mem_append.mp hb with h | h
        · simp at h
          omega
        rcases List.mem_append.mp h with h | h
        · simp at h
          omega
        · have := step_mem_ghb_take h
          omega
      refine pairwise_le_append 2 (by decide) ?_ (by decide) ?_
      · intro b hb
        rcases List.mem_append.mp hb with h | h
        · simp at h
          omega
        · have := step_mem_ghb_take h
          omega
      refine pairwise_le_append 3 (by decide)
        (fun b hb => le_of_eq (step_mem_ghb_take hb).symm) (by decide)
        (pairwise_le_of_all_eq fun x hx => step_mem_ghb_take hx)
  · have hshape : stepsOf ((process_audio_task ms kt model mime sz wt
        (.fail e) gt g).1)
        = stepsOf (preparation_writes model mime sz) ++
          (stepsOf (whisper_heartbeat_writes.take wt) ++ stepsOf [error_status e]) := by
      simp only [process_audio_task, List.append_assoc, stepsOf, List.filterMap_append]
    rw [hshape, steps_prep, steps_error, List.append_nil]
    refine List.Pairwise.chain' ?_
    exact pairwise_le_append 2 (by decide)
      (fun b hb => le_of_eq (step_mem_whb_take hb).symm) (by decide)
      (pairwise_le_of_all_eq fun x hx => step_mem_whb_take hx)

end MtgMinutes
